import Mathlib

/-
Verification of the fetcher/kwatta HTTP-client library (src/lib/index.ts).

The library is a request-dispatch facade: verb methods (get/post/put/...)
call one worker, performRequest, which does rate limiting, a TTL cache
lookup, header assembly, a middleware pass, a multipart header exception,
auth-header injection, the network call, caching of the decoded response,
and success/error event notification.

The embedding below translates the Kwatta class (the richer of the two
variants in src/lib/index.ts; the TypeScript Fetcher variant is modelled
where a claim cites it).  JavaScript runtime values are modelled by the
inductive JsValue; JS truthiness by the function truthy; JSON.stringify by
jsonStringify; JS objects used as string maps by association lists.
Date.now() is modelled by explicit time parameters, one per call site.
The transport (fetch) is modelled by passing in the Response the network
would produce; event handlers are identified by numeric ids and an
outcome records the exact list of (handler, event) invocations.
-/

set_option autoImplicit false

namespace Fetcher

/-- JavaScript runtime values, as far as the library observes them:
primitives, objects, arrays, and multipart FormData payloads. -/
inductive JsValue : Type where
  | vNull : JsValue
  | vUndefined : JsValue
  | vBool : Bool → JsValue
  | vNum : Int → JsValue
  | vStr : String → JsValue
  | vObj : List (String × JsValue) → JsValue
  | vArr : List JsValue → JsValue
  | vFormData : List (String × String) → JsValue
deriving Repr

/-- JS truthiness: null, undefined, false, 0 and the empty string are
falsy; every object (including FormData) and array is truthy. -/
def truthy : JsValue → Bool
  | .vNull => false
  | .vUndefined => false
  | .vBool b => b
  | .vNum n => n != 0
  | .vStr s => s != ""
  | .vObj _ => true
  | .vArr _ => true
  | .vFormData _ => true

/-- Whether a value is a FormData instance (the source tests
body instanceof FormData). -/
def isFormData : JsValue → Bool
  | .vFormData _ => true
  | _ => false

/-- JSON string escaping for one character (quote, backslash and the
common control characters, as JSON.stringify produces them). -/
def jsEscapeChar (c : Char) : String :=
  if c = '\\' then "\\\\"
  else if c = '"' then "\\\""
  else if c = '\n' then "\\n"
  else if c = '\t' then "\\t"
  else if c = '\r' then "\\r"
  else String.singleton c

/-- JSON string escaping. -/
def jsEscape (s : String) : String :=
  String.join (s.toList.map jsEscapeChar)

/-- A JSON string literal: the escaped text between double quotes. -/
def jsonStrLit (s : String) : String :=
  "\"" ++ jsEscape s ++ "\""

mutual

/-- Model of JSON.stringify: none models the undefined result
(stringify of undefined); object members whose value stringifies to
undefined are skipped; array elements that stringify to undefined
render as null; FormData has no enumerable own properties and
stringifies to an empty object. -/
def jsonStringify : JsValue → Option String
  | .vNull => some "null"
  | .vUndefined => none
  | .vBool b => some (cond b "true" "false")
  | .vNum n => some (toString n)
  | .vStr s => some (jsonStrLit s)
  | .vObj fs => some ("\x7b" ++ String.intercalate "," (jsonFields fs) ++ "\x7d")
  | .vArr es => some ("[" ++ String.intercalate "," (jsonElems es) ++ "]")
  | .vFormData _ => some ("\x7b" ++ "\x7d")

/-- Rendered members of a JSON object, skipping undefined values. -/
def jsonFields : List (String × JsValue) → List String
  | [] => []
  | (k, v) :: fs =>
    match jsonStringify v with
    | some s => (jsonStrLit k ++ ":" ++ s) :: jsonFields fs
    | none => jsonFields fs

/-- Rendered elements of a JSON array, undefined rendering as null. -/
def jsonElems : List JsValue → List String
  | [] => []
  | v :: vs => (jsonStringify v).getD "null" :: jsonElems vs

end

/-- JSON.stringify as a JS value: a string, or undefined. -/
def jsStringifyVal (v : JsValue) : JsValue :=
  match jsonStringify v with
  | some s => .vStr s
  | none => .vUndefined

/-- First value stored under a key in a JS object modelled as an
association list. -/
def alistGet {α : Type} : List (String × α) → String → Option α
  | [], _ => none
  | p :: l, k => if p.1 == k then some p.2 else alistGet l k

/-- Whether a key is present (the JS in operator). -/
def alistHas {α : Type} : List (String × α) → String → Bool
  | [], _ => false
  | p :: l, k => p.1 == k || alistHas l k

/-- Replacement of the value stored under a present key. -/
def alistReplace {α : Type} : List (String × α) → String → α → List (String × α)
  | [], _, _ => []
  | p :: l, k, v => if p.1 == k then (k, v) :: alistReplace l k v
                    else p :: alistReplace l k v

/-- JS property assignment obj[k] = v (also the spread override): the
value under k is replaced in place when the key exists, and appended
otherwise. -/
def alistSet {α : Type} (l : List (String × α)) (k : String) (v : α) :
    List (String × α) :=
  if alistHas l k then alistReplace l k v else l ++ [(k, v)]

/-- JS delete obj[k]. -/
def alistErase {α : Type} : List (String × α) → String → List (String × α)
  | [], _ => []
  | p :: l, k => if p.1 == k then alistErase l k else p :: alistErase l k

/-- A cached response: the decoded body and the insertion timestamp
(CacheItem in the source declarations). -/
structure CacheItem where
  data : JsValue
  timestamp : Int

/-- The RequestError shape: an Error with an optional numeric status. -/
structure RequestError where
  message : String
  status : Option Int
deriving Repr, DecidableEq

/-- The payload of a RequestEvent: the decoded response body on
success, the error value on failure. -/
inductive EvPayload : Type where
  | payloadData : JsValue → EvPayload
  | payloadErr : RequestError → EvPayload

/-- A RequestEvent: a string tag and a payload. -/
structure REvent where
  type : String
  payload : EvPayload

/-- The outgoing request options observed by the transport: method,
headers and body (the abort signal carries no observable data and is
omitted). -/
structure Options where
  method : String
  headers : List (String × String)
  body : JsValue

/-- A middleware maps request options to new options; returning none
models a middleware that returns null or undefined. -/
def Middleware : Type := Options → Option Options

/-- What the transport (fetch) answers: the success flag, the numeric
status and the JSON-decoded body. -/
structure Response where
  ok : Bool
  status : Int
  json : JsValue

/-- The console output the class produces, kept structured: the
success log on a cache hit, the failure log on a bad status, the
console.error line and the aborted log of the catch block. -/
inductive LogEntry : Type where
  | successLog : String → String → LogEntry
  | failureLog : String → String → Int → LogEntry
  | abortedLog : String → String → LogEntry
  | consoleErrorLog : String → LogEntry

/-- The instance state of the Kwatta class.  The field includeBearer
models the source field that selects the Bearer prefix for the auth
header value. -/
structure Client where
  baseURL : String
  authToken : Option String
  authHeaderName : String
  includeBearer : Bool
  rateLimitDelay : Int
  lastRequestTimestamp : Int
  cacheLifetime : Int
  cache : List (String × CacheItem)
  middlewares : List Middleware
  eventHandlers : List Nat

/-- The constructor: every field at its declared initial value. -/
def newClient (baseURL : String) : Client :=
  { baseURL := baseURL
    authToken := none
    authHeaderName := "Authorization"
    includeBearer := true
    rateLimitDelay := 1000
    lastRequestTimestamp := 0
    cacheLifetime := 60 * 1000
    cache := []
    middlewares := []
    eventHandlers := [] }

/-- setAuthToken(token, headerName, includeBearerPrefix); the source
defaults are headerName "Authorization" and prefix flag true. -/
def Client.setAuthToken (c : Client) (token headerName : String)
    (withBearer : Bool) : Client :=
  { c with authToken := some token, authHeaderName := headerName,
           includeBearer := withBearer }

/-- setRateLimitDelay(delay). -/
def Client.setRateLimitDelay (c : Client) (delay : Int) : Client :=
  { c with rateLimitDelay := delay }

/-- setLastRequestTimestamp(timestamp). -/
def Client.setLastRequestTimestamp (c : Client) (timestamp : Int) : Client :=
  { c with lastRequestTimestamp := timestamp }

/-- setCacheLifetime(lifetime). -/
def Client.setCacheLifetime (c : Client) (lifetime : Int) : Client :=
  { c with cacheLifetime := lifetime }

/-- use(middleware): appends to the middleware list. -/
def Client.use (c : Client) (m : Middleware) : Client :=
  { c with middlewares := c.middlewares ++ [m] }

/-- clearCache(): resets the cache store. -/
def Client.clearCache (c : Client) : Client :=
  { c with cache := [] }

/-- addEventHandler(handler): appends to the handler list.  Handlers
are identified by numeric ids (JS compares them by identity). -/
def Client.addEventHandler (c : Client) (h : Nat) : Client :=
  { c with eventHandlers := c.eventHandlers ++ [h] }

/-- Removal of the first occurrence, as indexOf plus splice does; the
list is unchanged when the element is absent (indexOf yields -1). -/
def removeFirst : List Nat → Nat → List Nat
  | [], _ => []
  | x :: xs, h => if x = h then xs else x :: removeFirst xs h

/-- removeEventHandler(handler). -/
def Client.removeEventHandler (c : Client) (h : Nat) : Client :=
  { c with eventHandlers := removeFirst c.eventHandlers h }

/-- getFromCache(key) at a given Date.now() value: a fresh entry is
returned and the state kept; a stale or missing entry yields
undefined and the key is deleted. -/
def Client.getFromCache (c : Client) (key : String) (now : Int) :
    Option JsValue × Client :=
  match alistGet c.cache key with
  | some item =>
    if now - item.timestamp < c.cacheLifetime then (some item.data, c)
    else (none, { c with cache := alistErase c.cache key })
  | none => (none, { c with cache := alistErase c.cache key })

/-- addToCache(key, data) at a given Date.now() value. -/
def Client.addToCache (c : Client) (key : String) (data : JsValue)
    (now : Int) : Client :=
  { c with cache := alistSet c.cache key { data := data, timestamp := now } }

/-- The default headers of the class. -/
def defaultHeaders : List (String × String) :=
  [("Content-Type", "application/json")]

/-- buildHeaders(customHeaders): a copy of the defaults, overridden by
the caller-supplied headers. -/
def buildHeaders (customHeaders : Option (List (String × String))) :
    List (String × String) :=
  match customHeaders with
  | some cs => cs.foldl (fun acc p => alistSet acc p.1 p.2) defaultHeaders
  | none => defaultHeaders

/-- applyMiddlewares(options): the options threaded through every
registered middleware in list order; a middleware answering null or
undefined leaves the accumulated options unchanged. -/
def applyMiddlewares (ms : List Middleware) (o : Options) : Options :=
  ms.foldl (fun acc m => (m acc).getD acc) o

/-- notifyEvent(type, payload): every registered handler receives the
event once, in registration order. -/
def notifyEvent (handlers : List Nat) (type : String) (payload : EvPayload) :
    List (Nat × REvent) :=
  handlers.map (fun h => (h, { type := type, payload := payload }))

/-- The error built for a non-ok response: message naming the
lower-cased method and the url, status field set to the HTTP status. -/
def httpError (method url : String) (status : Int) : RequestError :=
  { message := "Failed to " ++ method.toLower ++ " data to " ++ url ++
               ". Status: " ++ toString status
    status := some status }

/-- Everything one performRequest call observably does. -/
structure Outcome where
  result : Except RequestError JsValue
  client : Client
  events : List (Nat × REvent)
  logs : List LogEntry
  networkCalled : Bool
  dispatched : Option Options
  waitedDelay : Int
  dispatchStart : Option Int

/-- The request options the network call receives, fully assembled:
defaults merged with caller headers, the body rendered (FormData kept,
truthy values passed through JSON.stringify, falsy ones dropped), the
middleware pass, the multipart Content-Type removal, then the auth
header injection. -/
def finalOptions (c : Client) (method : String)
    (headers : Option (List (String × String))) (body : JsValue)
    (includeAuthHeader : Bool) : Options :=
  let options0 : Options :=
    { method := method
      headers := buildHeaders headers
      body := if isFormData body then body
              else if truthy body then jsStringifyVal body else .vUndefined }
  let options1 := applyMiddlewares c.middlewares options0
  let options2 :=
    if isFormData body then
      if alistHas options1.headers "Content-Type" then
        { options1 with headers := alistErase options1.headers "Content-Type" }
      else options1
    else options1
  match c.authToken with
  | some tok =>
    if tok != "" && includeAuthHeader then
      { options2 with
        headers := alistSet options2.headers c.authHeaderName
          (if c.includeBearer then "Bearer " ++ tok else tok) }
    else options2
  | none => options2

/-- performRequest(method, path, headers, body, timeout,
includeAuthHeader), embedded as a pure function.  The transport answer
is the resp parameter; the four time parameters model the four
Date.now() call sites in program order: the rate-limit check, the
lookup inside getFromCache, the addToCache timestamp and the
lastRequestTimestamp update.  The timeout only schedules an abort and
is not otherwise observable, so it is omitted.  dispatchStart is the
instant the code can proceed past the rate-limit wait, tStart plus the
waited delay. -/
def Client.performRequest (c : Client) (method path : String)
    (headers : Option (List (String × String))) (body : JsValue)
    (includeAuthHeader : Bool) (resp : Response)
    (tStart tLookup tStore tStamp : Int) : Outcome :=
  let url := c.baseURL ++ path
  let timeSinceLastRequest := tStart - c.lastRequestTimestamp
  let waited := if timeSinceLastRequest < c.rateLimitDelay
                then c.rateLimitDelay - timeSinceLastRequest else 0
  let cacheKey := method ++ ":" ++ url
  let lookup := c.getFromCache cacheKey tLookup
  let c1 := lookup.2
  let options3 := finalOptions c method headers body includeAuthHeader
  let missOutcome : Outcome :=
    if resp.ok then
      { result := .ok resp.json
        client := { c1.addToCache cacheKey resp.json tStore with
                    lastRequestTimestamp := tStamp }
        events := notifyEvent c1.eventHandlers "success" (.payloadData resp.json)
        logs := []
        networkCalled := true
        dispatched := some options3
        waitedDelay := waited
        dispatchStart := some (tStart + waited) }
    else
      let err := httpError method url resp.status
      { result := .error err
        client := c1
        events := notifyEvent c1.eventHandlers "error" (.payloadErr err)
        logs := [.failureLog method url resp.status,
                 .consoleErrorLog ("Error " ++ method.toLower ++ "ing data to "
                   ++ path ++ ": " ++ err.message),
                 .abortedLog method url]
        networkCalled := true
        dispatched := some options3
        waitedDelay := waited
        dispatchStart := some (tStart + waited) }
  match lookup.1 with
  | some v =>
    if truthy v then
      { result := .ok v
        client := c1
        events := []
        logs := [.successLog method url]
        networkCalled := false
        dispatched := none
        waitedDelay := waited
        dispatchStart := none }
    else missOutcome
  | none => missOutcome

/-- get(path, headers, timeout): no body. -/
def Client.get (c : Client) (path : String)
    (headers : Option (List (String × String))) (resp : Response)
    (t0 t1 t2 t3 : Int) : Outcome :=
  c.performRequest "GET" path headers .vUndefined true resp t0 t1 t2 t3

/-- post(path, data, headers, timeout): the data is passed through
JSON.stringify on the way to performRequest. -/
def Client.post (c : Client) (path : String) (data : JsValue)
    (headers : Option (List (String × String))) (resp : Response)
    (t0 t1 t2 t3 : Int) : Outcome :=
  c.performRequest "POST" path headers (jsStringifyVal data) true resp t0 t1 t2 t3

/-- put(path, data, headers, timeout). -/
def Client.put (c : Client) (path : String) (data : JsValue)
    (headers : Option (List (String × String))) (resp : Response)
    (t0 t1 t2 t3 : Int) : Outcome :=
  c.performRequest "PUT" path headers (jsStringifyVal data) true resp t0 t1 t2 t3

/-- patch(path, data, headers, timeout). -/
def Client.patch (c : Client) (path : String) (data : JsValue)
    (headers : Option (List (String × String))) (resp : Response)
    (t0 t1 t2 t3 : Int) : Outcome :=
  c.performRequest "PATCH" path headers (jsStringifyVal data) true resp t0 t1 t2 t3

/-- A transport answer used by concrete instances: 200 OK, body 5. -/
def okResp : Response := { ok := true, status := 200, json := .vNum 5 }

/-- A transport answer used by concrete instances: a 404 failure. -/
def errResp : Response := { ok := false, status := 404, json := .vNull }

/-- A plain client with the rate-limit delay switched off. -/
def baseClient : Client := { newClient "https://x" with rateLimitDelay := 0 }

/-- A client holding a fresh cache entry for GET https://x/y (truthy
payload 7 inserted at time 0) and one registered handler. -/
def hitClient : Client :=
  { baseClient with
    eventHandlers := [0]
    cache := [("GET:https://x/y", { data := .vNum 7, timestamp := 0 })] }

/-- A client holding a fresh cache entry whose payload is the falsy
value false. -/
def falsyClient : Client :=
  { baseClient with
    cache := [("GET:https://x/y", { data := .vBool false, timestamp := 0 })] }

/-- A client with two registered handlers. -/
def twoHandlerClient : Client := { baseClient with eventHandlers := [3, 8] }

/-- A client with one registered handler and an empty cache. -/
def oneHandlerClient : Client := { baseClient with eventHandlers := [0] }

/-- A client whose last request was recorded at time 100, keeping the
constructor delay of 1000 ms. -/
def slowClient : Client := { newClient "https://x" with lastRequestTimestamp := 100 }

/-- The object with single member a holding 1, used as a POST body. -/
def examplePostData : JsValue := .vObj [("a", .vNum 1)]

/-- Baseline options: default headers, no body. -/
def exampleOptions : Options :=
  { method := "GET", headers := defaultHeaders, body := .vUndefined }

/-- A middleware adding a custom header, as in the library README. -/
def mAddHeader : Middleware :=
  fun o => some { o with headers := alistSet o.headers "X-Custom-Header" "v" }

/-- A middleware that answers nothing (undefined). -/
def mNone : Middleware := fun _ => none

/-- The options a plain client with token abc under header X-Token and
no Bearer prefix hands to the transport on a GET. -/
def authedOptsA : Options :=
  { method := "GET"
    headers := [("Content-Type", "application/json"), ("X-Token", "abc")]
    body := .vUndefined }

/-- The options a plain client with token abc under the default header
and Bearer prefix hands to the transport on a GET. -/
def authedOptsB : Options :=
  { method := "GET"
    headers := [("Content-Type", "application/json"), ("Authorization", "Bearer abc")]
    body := .vUndefined }

/-- The options a plain client dispatches for a FormData body: the
default Content-Type has been removed. -/
def fdOpts : Options :=
  { method := "POST", headers := [], body := .vFormData [("f", "1")] }

/-- Properties of the association-list model of JS objects. -/
theorem alistGet_append {α : Type} (l₁ l₂ : List (String × α)) (k : String) :
    alistGet (l₁ ++ l₂) k =
      match alistGet l₁ k with
      | some v => some v
      | none => alistGet l₂ k := by
  induction l₁ with
  | nil => simp [alistGet]
  | cons p l ih =>
    by_cases h : p.1 = k <;> simp [alistGet, h, ih]

theorem alistGet_of_not_has {α : Type} (l : List (String × α)) (k : String)
    (h : alistHas l k = false) : alistGet l k = none := by
  induction l with
  | nil => rfl
  | cons p l ih =>
    simp only [alistHas, Bool.or_eq_false_iff] at h
    simp only [alistGet, h.1, Bool.false_eq_true, if_false]
    exact ih h.2

theorem alistGet_replace_self {α : Type} (l : List (String × α)) (k : String) (v : α)
    (h : alistHas l k = true) : alistGet (alistReplace l k v) k = some v := by
  induction l with
  | nil => exact absurd h (by simp [alistHas])
  | cons p l ih =>
    by_cases hp : p.1 = k
    · simp [alistReplace, alistGet, hp]
    · simp only [alistHas, Bool.or_eq_true] at h
      rcases h with h | h
      · exact absurd (by simpa using h) hp
      · simp only [alistReplace, alistGet, hp, beq_iff_eq, if_false]
        exact ih h

theorem alistGet_set_self {α : Type} (l : List (String × α)) (k : String) (v : α) :
    alistGet (alistSet l k v) k = some v := by
  unfold alistSet
  by_cases h : alistHas l k = true
  · simp only [if_pos h]
    exact alistGet_replace_self l k v h
  · simp only [h, Bool.false_eq_true, if_false]
    rw [alistGet_append, alistGet_of_not_has l k (by simpa using h)]
    simp [alistGet]

theorem alistGet_replace_ne {α : Type} (l : List (String × α)) (k k' : String) (v : α)
    (hne : k ≠ k') : alistGet (alistReplace l k' v) k = alistGet l k := by
  induction l with
  | nil => rfl
  | cons p l ih =>
    by_cases hp : p.1 = k'
    · simp [alistReplace, alistGet, hp, Ne.symm hne, ih]
    · by_cases hpk : p.1 = k <;> simp [alistReplace, alistGet, hp, hpk, hne, ih]

theorem alistGet_set_ne {α : Type} (l : List (String × α)) (k k' : String) (v : α)
    (hne : k ≠ k') : alistGet (alistSet l k' v) k = alistGet l k := by
  unfold alistSet
  by_cases h : alistHas l k' = true
  · simp only [if_pos h]
    exact alistGet_replace_ne l k k' v hne
  · simp only [h, Bool.false_eq_true, if_false]
    rw [alistGet_append]
    have : alistGet [(k', v)] k = none := by simp [alistGet, Ne.symm hne]
    cases hf : alistGet l k <;> simp [this, hf]

theorem alistGet_erase_self {α : Type} (l : List (String × α)) (k : String) :
    alistGet (alistErase l k) k = none := by
  induction l with
  | nil => rfl
  | cons p l ih =>
    by_cases hp : p.1 = k <;> simp [alistErase, alistGet, hp, ih]

/-- Structural fact: whatever options performRequest hands to the
transport are exactly finalOptions. -/
theorem performRequest_dispatched_eq (c : Client) (method path : String)
    (headers : Option (List (String × String))) (body : JsValue)
    (iah : Bool) (resp : Response) (t0 t1 t2 t3 : Int) (o : Options)
    (ho : (c.performRequest method path headers body iah resp t0 t1 t2 t3).dispatched = some o) :
    o = finalOptions c method headers body iah := by
  unfold Client.performRequest at ho
  simp only [] at ho
  split at ho
  · split at ho
    · simp at ho
    · split at ho <;> simp_all
  · split at ho <;> simp_all

/-- Structural fact: the handler ids a call notifies are either none
(cache hit) or exactly the registered handlers, each once and in
order. -/
theorem performRequest_events_shape (c : Client) (method path : String)
    (headers : Option (List (String × String))) (body : JsValue)
    (iah : Bool) (resp : Response) (t0 t1 t2 t3 : Int) :
    (c.performRequest method path headers body iah resp t0 t1 t2 t3).events.map Prod.fst = [] ∨
    (c.performRequest method path headers body iah resp t0 t1 t2 t3).events.map Prod.fst = c.eventHandlers := by
  have hhandlers : (c.getFromCache (method ++ ":" ++ (c.baseURL ++ path)) t1).2.eventHandlers = c.eventHandlers := by
    unfold Client.getFromCache
    split
    · split <;> rfl
    · rfl
  unfold Client.performRequest
  simp only []
  split
  · split
    · left; rfl
    · split
      · right
        simp only [notifyEvent, hhandlers, List.map_map]
        exact List.map_id _
      · right
        simp only [notifyEvent, hhandlers, List.map_map]
        exact List.map_id _
  · split
    · right
      simp only [notifyEvent, hhandlers, List.map_map]
      exact List.map_id _
    · right
      simp only [notifyEvent, hhandlers, List.map_map]
      exact List.map_id _

/-- Characterization of a cache hit: a found, fresh, truthy entry is
answered from the cache with no network call, no event, no state
change, and a success log. -/
theorem performRequest_hit_outcome (c : Client) (method path : String)
    (headers : Option (List (String × String))) (body : JsValue)
    (iah : Bool) (resp : Response) (t0 t1 t2 t3 : Int) (item : CacheItem)
    (hfound : alistGet c.cache (method ++ ":" ++ (c.baseURL ++ path)) = some item)
    (hfresh : t1 - item.timestamp < c.cacheLifetime)
    (htruthy : truthy item.data = true) :
    c.performRequest method path headers body iah resp t0 t1 t2 t3 =
      { result := .ok item.data
        client := c
        events := []
        logs := [.successLog method (c.baseURL ++ path)]
        networkCalled := false
        dispatched := none
        waitedDelay := if t0 - c.lastRequestTimestamp < c.rateLimitDelay
                       then c.rateLimitDelay - (t0 - c.lastRequestTimestamp) else 0
        dispatchStart := none } := by
  have hlook : c.getFromCache (method ++ ":" ++ (c.baseURL ++ path)) t1 = (some item.data, c) := by
    unfold Client.getFromCache
    rw [hfound]
    simp [hfresh]
  unfold Client.performRequest
  simp only [hlook, htruthy]
  simp

/-- Characterization of a dispatching call with an ok response: the
decoded body is cached, the success event goes to every handler, the
timestamp is updated and the body is returned. -/
theorem performRequest_dispatch_ok (c : Client) (method path : String)
    (headers : Option (List (String × String))) (body : JsValue)
    (iah : Bool) (resp : Response) (t0 t1 t2 t3 : Int)
    (lv : Option JsValue) (c1 : Client)
    (hlook : c.getFromCache (method ++ ":" ++ (c.baseURL ++ path)) t1 = (lv, c1))
    (hnohit : ∀ v, lv = some v → truthy v = false)
    (hok : resp.ok = true) :
    c.performRequest method path headers body iah resp t0 t1 t2 t3 =
      { result := .ok resp.json
        client := { c1.addToCache (method ++ ":" ++ (c.baseURL ++ path)) resp.json t2 with
                    lastRequestTimestamp := t3 }
        events := notifyEvent c1.eventHandlers "success" (.payloadData resp.json)
        logs := []
        networkCalled := true
        dispatched := some (finalOptions c method headers body iah)
        waitedDelay := if t0 - c.lastRequestTimestamp < c.rateLimitDelay
                       then c.rateLimitDelay - (t0 - c.lastRequestTimestamp) else 0
        dispatchStart := some (t0 + (if t0 - c.lastRequestTimestamp < c.rateLimitDelay
                       then c.rateLimitDelay - (t0 - c.lastRequestTimestamp) else 0)) } := by
  unfold Client.performRequest
  simp only [hlook, hok]
  cases lv with
  | none => simp
  | some v =>
    have := hnohit v rfl
    simp [this]

/-- Characterization of a dispatching call with a failing response:
the call rejects with the status-carrying error, the same error is
broadcast to every handler, the failure and abort lines are logged,
and neither the cache nor the timestamp is updated. -/
theorem performRequest_dispatch_err (c : Client) (method path : String)
    (headers : Option (List (String × String))) (body : JsValue)
    (iah : Bool) (resp : Response) (t0 t1 t2 t3 : Int)
    (lv : Option JsValue) (c1 : Client)
    (hlook : c.getFromCache (method ++ ":" ++ (c.baseURL ++ path)) t1 = (lv, c1))
    (hnohit : ∀ v, lv = some v → truthy v = false)
    (hok : resp.ok = false) :
    c.performRequest method path headers body iah resp t0 t1 t2 t3 =
      { result := .error (httpError method (c.baseURL ++ path) resp.status)
        client := c1
        events := notifyEvent c1.eventHandlers "error"
          (.payloadErr (httpError method (c.baseURL ++ path) resp.status))
        logs := [.failureLog method (c.baseURL ++ path) resp.status,
                 .consoleErrorLog ("Error " ++ method.toLower ++ "ing data to "
                   ++ path ++ ": " ++ (httpError method (c.baseURL ++ path) resp.status).message),
                 .abortedLog method (c.baseURL ++ path)]
        networkCalled := true
        dispatched := some (finalOptions c method headers body iah)
        waitedDelay := if t0 - c.lastRequestTimestamp < c.rateLimitDelay
                       then c.rateLimitDelay - (t0 - c.lastRequestTimestamp) else 0
        dispatchStart := some (t0 + (if t0 - c.lastRequestTimestamp < c.rateLimitDelay
                       then c.rateLimitDelay - (t0 - c.lastRequestTimestamp) else 0)) } := by
  unfold Client.performRequest
  simp only [hlook, hok]
  cases lv with
  | none => simp
  | some v =>
    have := hnohit v rfl
    simp [this]

/-- Auth injection happens last: with a configured non-empty token the
final options carry the configured header with the optionally
Bearer-prefixed token value, whatever the middlewares did. -/
theorem finalOptions_auth_header (c : Client) (method : String)
    (headers : Option (List (String × String))) (body : JsValue) (tok : String)
    (htok : c.authToken = some tok) (hne : tok ≠ "") :
    alistGet (finalOptions c method headers body true).headers c.authHeaderName =
      some (if c.includeBearer then "Bearer " ++ tok else tok) := by
  unfold finalOptions
  rw [htok]
  have hb : (tok != "" && true) = true := by simp [hne]
  simp only [hb, if_pos]
  exact alistGet_set_self _ _ _

/-- Multipart exception: for a FormData body the final options carry
no Content-Type header, provided the auth header is not itself named
Content-Type. -/
theorem finalOptions_formdata_no_content_type (c : Client) (method : String)
    (headers : Option (List (String × String))) (body : JsValue) (iah : Bool)
    (hfd : isFormData body = true) (hname : c.authHeaderName ≠ "Content-Type") :
    alistGet (finalOptions c method headers body iah).headers "Content-Type" = none := by
  unfold finalOptions
  simp only [hfd, if_pos]
  split
  · split
    · rw [alistGet_set_ne _ _ _ _ (Ne.symm hname)]
      split
      · exact alistGet_erase_self _ _
      · rename_i hhas
        exact alistGet_of_not_has _ _ (by simpa using hhas)
    · split
      · exact alistGet_erase_self _ _
      · rename_i hhas
        exact alistGet_of_not_has _ _ (by simpa using hhas)
  · split
    · exact alistGet_erase_self _ _
    · rename_i hhas
      exact alistGet_of_not_has _ _ (by simpa using hhas)

/-- The waited delay is the rate-limit remainder, and the dispatch, if
any, starts exactly when the wait ends. -/
theorem performRequest_time_fields (c : Client) (method path : String)
    (headers : Option (List (String × String))) (body : JsValue)
    (iah : Bool) (resp : Response) (t0 t1 t2 t3 : Int) :
    (c.performRequest method path headers body iah resp t0 t1 t2 t3).waitedDelay =
      (if t0 - c.lastRequestTimestamp < c.rateLimitDelay
       then c.rateLimitDelay - (t0 - c.lastRequestTimestamp) else 0) ∧
    ((c.performRequest method path headers body iah resp t0 t1 t2 t3).dispatchStart = none ∨
     (c.performRequest method path headers body iah resp t0 t1 t2 t3).dispatchStart =
       some (t0 + (if t0 - c.lastRequestTimestamp < c.rateLimitDelay
                   then c.rateLimitDelay - (t0 - c.lastRequestTimestamp) else 0))) := by
  unfold Client.performRequest
  simp only []
  constructor
  · split
    · split
      · rfl
      · split <;> rfl
    · split <;> rfl
  · split
    · split
      · left; rfl
      · split
        · right; rfl
        · right; rfl
    · split
      · right; rfl
      · right; rfl

/-- Removing an absent element is the identity. -/
theorem removeFirst_of_not_mem (l : List Nat) (h : Nat) (hnot : h ∉ l) :
    removeFirst l h = l := by
  induction l with
  | nil => rfl
  | cons x xs ih =>
    have hx : x ≠ h := fun he => hnot (he ▸ List.mem_cons_self x xs)
    simp only [removeFirst, hx, if_false]
    rw [ih (fun hm => hnot (List.mem_cons_of_mem x hm))]

/-- Appending an element not previously present and then removing its
first occurrence restores the list. -/
theorem removeFirst_append_self (l : List Nat) (h : Nat) (hnot : h ∉ l) :
    removeFirst (l ++ [h]) h = l := by
  induction l with
  | nil => simp [removeFirst]
  | cons x xs ih =>
    have hx : x ≠ h := fun he => hnot (he ▸ List.mem_cons_self x xs)
    simp only [List.cons_append, removeFirst, hx, if_false]
    exact congrArg (fun l => x :: l) (ih (fun hm => hnot (List.mem_cons_of_mem x hm)))

/-- Claim C1 (amended): a request whose cache key holds a non-stale
entry with a truthy payload returns the cached payload immediately —
no network call, no lastRequestTimestamp update, client state
unchanged, and a success log line is written; but no success event is
broadcast: the event list is empty, so registered handlers are not
invoked on a cache hit. -/
theorem C1_cache_hit_no_event (c : Client) (method path : String)
    (headers : Option (List (String × String))) (body : JsValue)
    (resp : Response) (t0 t1 t2 t3 : Int) (item : CacheItem) (o : Outcome)
    (hfound : alistGet c.cache (method ++ ":" ++ (c.baseURL ++ path)) = some item)
    (hfresh : t1 - item.timestamp < c.cacheLifetime)
    (htruthy : truthy item.data = true)
    (ho : o = c.performRequest method path headers body true resp t0 t1 t2 t3) :
    o.result = .ok item.data ∧ o.client = c ∧ o.networkCalled = false ∧
    o.dispatched = none ∧ o.events = [] ∧
    o.logs = [.successLog method (c.baseURL ++ path)] := by
  subst ho
  rw [performRequest_hit_outcome c method path headers body true resp t0 t1 t2 t3
    item hfound hfresh htruthy]
  exact ⟨rfl, rfl, rfl, rfl, rfl, rfl⟩

/-- Witness for C1_cache_hit_no_event at hitClient: the cached payload
7 comes back and no event is emitted. -/
theorem C1_cache_hit_no_event_witness :
    (hitClient.performRequest "GET" "/y" none .vUndefined true okResp 5 5 5 5).result =
      .ok (.vNum 7) ∧
    (hitClient.performRequest "GET" "/y" none .vUndefined true okResp 5 5 5 5).events = [] :=
  ⟨(C1_cache_hit_no_event hitClient "GET" "/y" none .vUndefined okResp 5 5 5 5
      { data := .vNum 7, timestamp := 0 } _ rfl (by decide) rfl rfl).1,
   (C1_cache_hit_no_event hitClient "GET" "/y" none .vUndefined okResp 5 5 5 5
      { data := .vNum 7, timestamp := 0 } _ rfl (by decide) rfl rfl).2.2.2.2.1⟩

/-- Claim C1 as stated is false on the code: hitClient has handler 0
registered and a fresh truthy cache entry; the request is answered
from the cache without a network call, yet the broadcast list is
empty, so no success event reaches handler 0. -/
theorem C1_claim_counterexample :
    hitClient.eventHandlers = [0] ∧
    (hitClient.performRequest "GET" "/y" none .vUndefined true okResp 5 5 5 5).networkCalled = false ∧
    (hitClient.performRequest "GET" "/y" none .vUndefined true okResp 5 5 5 5).result = .ok (.vNum 7) ∧
    (hitClient.performRequest "GET" "/y" none .vUndefined true okResp 5 5 5 5).events = [] :=
  ⟨rfl, rfl, rfl, rfl⟩

/-- Claim C2: the code double-serializes POST bodies.  post hands
performRequest the JSON text of the data, and performRequest, seeing a
truthy non-FormData body, applies JSON.stringify to it again, so the
transport receives the JSON text of the JSON text — not the single
serialization the claim states.  Evaluated at the failing input
post("/u", examplePostData). -/
theorem C2_post_body_double_serialized :
    (baseClient.post "/u" examplePostData none okResp 0 0 0 0).dispatched =
      some { method := "POST", headers := defaultHeaders,
             body := .vStr "\"\x7b\\\"a\\\":1\x7d\"" } ∧
    jsonStringify examplePostData = some "\x7b\"a\":1\x7d" ∧
    ("\"\x7b\\\"a\\\":1\x7d\"" : String) ≠ "\x7b\"a\":1\x7d" :=
  ⟨rfl, rfl, by decide⟩

/-- Claim C3 (amended): a found entry looked up strictly before
insertion time plus lifetime is returned by getFromCache with the
cache untouched, and when its payload is truthy the request is served
without a network call; at or after that instant the entry is deleted,
a lookup of the key then fails, and the request dispatches to the
network.  (A fresh entry with a falsy payload is refetched — see
C10.) -/
theorem C3_cache_lifetime (c : Client) (method path : String)
    (headers : Option (List (String × String))) (body : JsValue)
    (resp : Response) (t0 t1 t2 t3 : Int) (item : CacheItem) (o : Outcome)
    (hfound : alistGet c.cache (method ++ ":" ++ (c.baseURL ++ path)) = some item)
    (ho : o = c.performRequest method path headers body true resp t0 t1 t2 t3) :
    (t1 - item.timestamp < c.cacheLifetime →
       c.getFromCache (method ++ ":" ++ (c.baseURL ++ path)) t1 = (some item.data, c)) ∧
    (t1 - item.timestamp < c.cacheLifetime → truthy item.data = true →
       o.result = .ok item.data ∧ o.networkCalled = false) ∧
    (c.cacheLifetime ≤ t1 - item.timestamp →
       c.getFromCache (method ++ ":" ++ (c.baseURL ++ path)) t1 =
         (none, { c with cache := alistErase c.cache (method ++ ":" ++ (c.baseURL ++ path)) }) ∧
       alistGet (alistErase c.cache (method ++ ":" ++ (c.baseURL ++ path)))
         (method ++ ":" ++ (c.baseURL ++ path)) = none ∧
       o.networkCalled = true) := by
  refine ⟨?_, ?_, ?_⟩
  · intro hfresh
    unfold Client.getFromCache
    rw [hfound]
    simp [hfresh]
  · intro hfresh htruthy
    subst ho
    rw [performRequest_hit_outcome c method path headers body true resp t0 t1 t2 t3
      item hfound hfresh htruthy]
    exact ⟨rfl, rfl⟩
  · intro hstale
    have hnl : ¬ (t1 - item.timestamp < c.cacheLifetime) := not_lt.mpr hstale
    have hlook : c.getFromCache (method ++ ":" ++ (c.baseURL ++ path)) t1 =
        (none, { c with cache := alistErase c.cache (method ++ ":" ++ (c.baseURL ++ path)) }) := by
      unfold Client.getFromCache
      rw [hfound]
      simp [hnl]
    refine ⟨hlook, alistGet_erase_self _ _, ?_⟩
    subst ho
    cases hok : resp.ok with
    | false =>
      rw [performRequest_dispatch_err c method path headers body true resp t0 t1 t2 t3
        none _ hlook (fun v hv => by cases hv) hok]
    | true =>
      rw [performRequest_dispatch_ok c method path headers body true resp t0 t1 t2 t3
        none _ hlook (fun v hv => by cases hv) hok]

/-- Witness for C3_cache_lifetime at hitClient: the fresh lookup at
time 5 returns the stored payload and the request makes no network
call. -/
theorem C3_cache_lifetime_witness :
    hitClient.getFromCache ("GET" ++ ":" ++ ("https://x" ++ "/y")) 5 =
      (some (.vNum 7), hitClient) ∧
    (hitClient.performRequest "GET" "/y" none .vUndefined true okResp 5 5 5 5).networkCalled = false :=
  ⟨(C3_cache_lifetime hitClient "GET" "/y" none .vUndefined okResp 5 5 5 5
      { data := .vNum 7, timestamp := 0 } _ rfl rfl).1 (by decide),
   ((C3_cache_lifetime hitClient "GET" "/y" none .vUndefined okResp 5 5 5 5
      { data := .vNum 7, timestamp := 0 } _ rfl rfl).2.1 (by decide) rfl).2⟩

/-- Claim C3 as stated is false on the code: falsyClient holds an
entry inserted at time 0 with lifetime 60000, the lookup happens at
time 0, strictly before expiry, and yet a network call is made,
because the payload false fails the truthiness test guarding the
cached return. -/
theorem C3_claim_counterexample :
    alistGet falsyClient.cache "GET:https://x/y" =
      some { data := .vBool false, timestamp := 0 } ∧
    ((0 : Int) - 0 < falsyClient.cacheLifetime) ∧
    (falsyClient.performRequest "GET" "/y" none .vUndefined true okResp 0 0 0 0).networkCalled = true :=
  ⟨rfl, by decide, rfl⟩

/-- Claim C4: after setAuthToken(token, "X-Token", false) every
dispatched request carries header X-Token with the bare token, and
after the default setAuthToken(token) it carries Authorization with
the Bearer-prefixed token; the client (hence its middleware list) is
arbitrary, and the injection happens after the middleware pass, so no
middleware can remove or alter the header in the dispatched
options. -/
theorem C4_auth_header_injection (c : Client) (token method path : String)
    (headers : Option (List (String × String))) (body : JsValue)
    (resp : Response) (t0 t1 t2 t3 : Int) (o₁ o₂ : Options)
    (htok : token ≠ "")
    (ho₁ : ((c.setAuthToken token "X-Token" false).performRequest method path headers body
      true resp t0 t1 t2 t3).dispatched = some o₁)
    (ho₂ : ((c.setAuthToken token "Authorization" true).performRequest method path headers body
      true resp t0 t1 t2 t3).dispatched = some o₂) :
    alistGet o₁.headers "X-Token" = some token ∧
    alistGet o₂.headers "Authorization" = some ("Bearer " ++ token) := by
  have h₁ := performRequest_dispatched_eq _ _ _ _ _ _ _ _ _ _ _ _ ho₁
  have h₂ := performRequest_dispatched_eq _ _ _ _ _ _ _ _ _ _ _ _ ho₂
  constructor
  · rw [h₁]
    exact finalOptions_auth_header (c.setAuthToken token "X-Token" false) method headers body
      token rfl htok
  · rw [h₂]
    exact finalOptions_auth_header (c.setAuthToken token "Authorization" true) method headers body
      token rfl htok

/-- Witness for C4_auth_header_injection at baseClient with token abc,
whose dispatched options are authedOptsA and authedOptsB. -/
theorem C4_auth_header_injection_witness :
    alistGet authedOptsA.headers "X-Token" = some "abc" ∧
    alistGet authedOptsB.headers "Authorization" = some ("Bearer " ++ "abc") :=
  C4_auth_header_injection baseClient "abc" "GET" "/y" none .vUndefined okResp 0 0 0 0
    authedOptsA authedOptsB (by decide) rfl rfl

/-- Claim C5: a response with a non-ok status S makes the call reject
with the error whose status field is S and whose message names the
lower-cased method and the url; that same error is broadcast as an
error event to every registered handler exactly once (the event list
is the handler list, mapped), and the caller receives that same error
— no retry, no fallback. -/
theorem C5_error_rejection_and_event (c : Client) (method path : String)
    (headers : Option (List (String × String))) (body : JsValue)
    (resp : Response) (t0 t1 t2 t3 : Int) (o : Outcome)
    (hok : resp.ok = false)
    (hmiss : alistGet c.cache (method ++ ":" ++ (c.baseURL ++ path)) = none)
    (ho : o = c.performRequest method path headers body true resp t0 t1 t2 t3) :
    o.result = .error (httpError method (c.baseURL ++ path) resp.status) ∧
    (httpError method (c.baseURL ++ path) resp.status).status = some resp.status ∧
    o.events = c.eventHandlers.map
      (fun h => (h, ⟨"error", .payloadErr (httpError method (c.baseURL ++ path) resp.status)⟩)) ∧
    o.events.length = c.eventHandlers.length ∧
    o.networkCalled = true := by
  subst ho
  have hlook : c.getFromCache (method ++ ":" ++ (c.baseURL ++ path)) t1 =
      (none, { c with cache := alistErase c.cache (method ++ ":" ++ (c.baseURL ++ path)) }) := by
    unfold Client.getFromCache
    rw [hmiss]
  rw [performRequest_dispatch_err c method path headers body true resp t0 t1 t2 t3
    none _ hlook (fun v hv => by cases hv) hok]
  refine ⟨rfl, rfl, rfl, ?_, rfl⟩
  simp [notifyEvent]

/-- Witness for C5_error_rejection_and_event: a 404 on a client with
two handlers rejects with the 404-carrying error and notifies both
handlers. -/
theorem C5_error_rejection_and_event_witness :
    (twoHandlerClient.performRequest "GET" "/y" none .vUndefined true errResp 0 0 0 0).result =
      .error (httpError "GET" ("https://x" ++ "/y") errResp.status) ∧
    (twoHandlerClient.performRequest "GET" "/y" none .vUndefined true errResp 0 0 0 0).events.length =
      twoHandlerClient.eventHandlers.length :=
  ⟨(C5_error_rejection_and_event twoHandlerClient "GET" "/y" none .vUndefined errResp 0 0 0 0
      _ rfl rfl rfl).1,
   (C5_error_rejection_and_event twoHandlerClient "GET" "/y" none .vUndefined errResp 0 0 0 0
      _ rfl rfl rfl).2.2.2.1⟩

/-- Claim C6: applyMiddlewares threads the options through the
registered middlewares in strict registration order (the head of the
list first, and a split list composes left part before right part), a
middleware answering nothing leaves the accumulated options unchanged
(the identity step), and use appends to the registration list. -/
theorem C6_middleware_order_identity (c : Client) (ms₁ ms₂ : List Middleware)
    (m : Middleware) (o : Options)
    (hm : m (applyMiddlewares ms₁ o) = none) :
    applyMiddlewares (m :: ms₂) o = applyMiddlewares ms₂ ((m o).getD o) ∧
    applyMiddlewares (ms₁ ++ ms₂) o = applyMiddlewares ms₂ (applyMiddlewares ms₁ o) ∧
    applyMiddlewares (ms₁ ++ m :: ms₂) o = applyMiddlewares ms₂ (applyMiddlewares ms₁ o) ∧
    (c.use m).middlewares = c.middlewares ++ [m] := by
  refine ⟨rfl, ?_, ?_, rfl⟩
  · unfold applyMiddlewares
    exact List.foldl_append _ _ _ _
  · unfold applyMiddlewares at hm ⊢
    rw [List.foldl_append]
    simp [hm]

/-- Witness for C6_middleware_order_identity: the nothing-returning
middleware mNone after mAddHeader leaves the accumulated options
unchanged, and use appends. -/
theorem C6_middleware_order_identity_witness :
    applyMiddlewares ([mAddHeader] ++ mNone :: []) exampleOptions =
      applyMiddlewares [] (applyMiddlewares [mAddHeader] exampleOptions) ∧
    (baseClient.use mNone).middlewares = baseClient.middlewares ++ [mNone] :=
  ⟨(C6_middleware_order_identity baseClient [mAddHeader] [] mNone exampleOptions rfl).2.2.1,
   (C6_middleware_order_identity baseClient [mAddHeader] [] mNone exampleOptions rfl).2.2.2⟩

/-- Claim C7: when the time elapsed since the recorded
lastRequestTimestamp T is still below the rate-limit delay D, the call
suspends for exactly the remainder D minus elapsed, so its network
dispatch, if one happens, begins exactly at T plus D — never
earlier. -/
theorem C7_rate_limit_wait (c : Client) (method path : String)
    (headers : Option (List (String × String))) (body : JsValue)
    (resp : Response) (t0 t1 t2 t3 : Int) (o : Outcome)
    (hlt : t0 - c.lastRequestTimestamp < c.rateLimitDelay)
    (ho : o = c.performRequest method path headers body true resp t0 t1 t2 t3) :
    o.waitedDelay = c.rateLimitDelay - (t0 - c.lastRequestTimestamp) ∧
    (o.dispatchStart = none ∨
     o.dispatchStart = some (c.lastRequestTimestamp + c.rateLimitDelay)) := by
  subst ho
  obtain ⟨hw, hd⟩ := performRequest_time_fields c method path headers body true resp t0 t1 t2 t3
  rw [if_pos hlt] at hw hd
  refine ⟨hw, ?_⟩
  rcases hd with hd | hd
  · exact Or.inl hd
  · right
    rw [hd]
    congr 1
    omega

/-- Witness for C7_rate_limit_wait: slowClient recorded its last
request at 100 with delay 1000; a call at 150 waits 950 and cannot
dispatch before 1100. -/
theorem C7_rate_limit_wait_witness :
    (slowClient.performRequest "GET" "/y" none .vUndefined true okResp 150 150 150 150).waitedDelay =
      slowClient.rateLimitDelay - (150 - slowClient.lastRequestTimestamp) ∧
    ((slowClient.performRequest "GET" "/y" none .vUndefined true okResp 150 150 150 150).dispatchStart = none ∨
     (slowClient.performRequest "GET" "/y" none .vUndefined true okResp 150 150 150 150).dispatchStart =
       some (slowClient.lastRequestTimestamp + slowClient.rateLimitDelay)) :=
  C7_rate_limit_wait slowClient "GET" "/y" none .vUndefined okResp 150 150 150 150 _ (by decide) rfl

/-- Claim C8: when the body is a multipart FormData payload, the
Content-Type header is removed after the middleware pass, so the
dispatched options carry no Content-Type and the transport can set its
own boundary header (provided the configured auth header is not itself
named Content-Type, which would reintroduce it). -/
theorem C8_formdata_content_type_removed (c : Client) (method path : String)
    (headers : Option (List (String × String))) (entries : List (String × String))
    (resp : Response) (t0 t1 t2 t3 : Int) (o : Options)
    (hname : c.authHeaderName ≠ "Content-Type")
    (ho : (c.performRequest method path headers (.vFormData entries) true resp
      t0 t1 t2 t3).dispatched = some o) :
    alistGet o.headers "Content-Type" = none := by
  have h := performRequest_dispatched_eq _ _ _ _ _ _ _ _ _ _ _ _ ho
  rw [h]
  exact finalOptions_formdata_no_content_type c method headers (.vFormData entries) true rfl hname

/-- Witness for C8_formdata_content_type_removed: baseClient
dispatches a FormData POST with options fdOpts, which carry no
Content-Type. -/
theorem C8_formdata_content_type_removed_witness :
    alistGet fdOpts.headers "Content-Type" = none :=
  C8_formdata_content_type_removed baseClient "POST" "/y" none [("f", "1")] okResp 0 0 0 0
    fdOpts (by decide) rfl

/-- Claim C9 (amended): for a handler h that is not currently
registered, addEventHandler(h) then removeEventHandler(h) restores the
handler list, removeEventHandler(h) alone is a no-op, and a request
triggered after the add-remove pair invokes h zero times.  (When h was
already registered the pair leaves the earlier registration in place
and h is still invoked — see the counterexample.) -/
theorem C9_add_remove_handler (c : Client) (h : Nat) (method path : String)
    (headers : Option (List (String × String))) (body : JsValue)
    (resp : Response) (t0 t1 t2 t3 : Int)
    (hnot : h ∉ c.eventHandlers) :
    ((c.addEventHandler h).removeEventHandler h).eventHandlers = c.eventHandlers ∧
    (c.removeEventHandler h).eventHandlers = c.eventHandlers ∧
    ((((c.addEventHandler h).removeEventHandler h).performRequest method path headers body
      true resp t0 t1 t2 t3).events.map Prod.fst).count h = 0 := by
  have h1 : ((c.addEventHandler h).removeEventHandler h).eventHandlers = c.eventHandlers := by
    show removeFirst (c.eventHandlers ++ [h]) h = c.eventHandlers
    exact removeFirst_append_self _ _ hnot
  refine ⟨h1, ?_, ?_⟩
  · show removeFirst c.eventHandlers h = c.eventHandlers
    exact removeFirst_of_not_mem _ _ hnot
  · rcases performRequest_events_shape ((c.addEventHandler h).removeEventHandler h)
      method path headers body true resp t0 t1 t2 t3 with hs | hs
    · rw [hs]
      rfl
    · rw [hs, h1]
      exact List.count_eq_zero.mpr hnot

/-- Witness for C9_add_remove_handler: on a handlerless client, adding
and removing handler 0 restores the empty list and a triggered request
invokes 0 zero times. -/
theorem C9_add_remove_handler_witness :
    ((baseClient.addEventHandler 0).removeEventHandler 0).eventHandlers = baseClient.eventHandlers ∧
    ((((baseClient.addEventHandler 0).removeEventHandler 0).performRequest "GET" "/y" none
      .vUndefined true okResp 0 0 0 0).events.map Prod.fst).count 0 = 0 :=
  ⟨(C9_add_remove_handler baseClient 0 "GET" "/y" none .vUndefined okResp 0 0 0 0 (by decide)).1,
   (C9_add_remove_handler baseClient 0 "GET" "/y" none .vUndefined okResp 0 0 0 0 (by decide)).2.2⟩

/-- Claim C9 as stated is false on the code: handler 0 is already
registered on oneHandlerClient; after addEventHandler(0) then
removeEventHandler(0) a triggered request still invokes handler 0
once, not zero times, because removal drops only the first
occurrence. -/
theorem C9_claim_counterexample :
    ((oneHandlerClient.addEventHandler 0).removeEventHandler 0).eventHandlers =
      oneHandlerClient.eventHandlers ∧
    ((((oneHandlerClient.addEventHandler 0).removeEventHandler 0).performRequest "GET" "/y" none
      .vUndefined true okResp 0 0 0 0).events.map Prod.fst).count 0 = 1 :=
  ⟨rfl, rfl⟩

/-- Claim C10: a non-stale cache entry whose stored payload is falsy
(null, false, 0 or the empty string) is treated as a cache miss by the
truthiness test in performRequest: the request dispatches to the
network and the caller receives the transport outcome, never the
cached value from the cache-return path. -/
theorem C10_falsy_cache_refetch (c : Client) (method path : String)
    (headers : Option (List (String × String))) (body : JsValue)
    (resp : Response) (t0 t1 t2 t3 : Int) (item : CacheItem) (o : Outcome)
    (hfound : alistGet c.cache (method ++ ":" ++ (c.baseURL ++ path)) = some item)
    (hfresh : t1 - item.timestamp < c.cacheLifetime)
    (hfalsy : truthy item.data = false)
    (ho : o = c.performRequest method path headers body true resp t0 t1 t2 t3) :
    o.networkCalled = true ∧
    (resp.ok = true → o.result = .ok resp.json) ∧
    (resp.ok = false → o.result = .error (httpError method (c.baseURL ++ path) resp.status)) := by
  subst ho
  have hlook : c.getFromCache (method ++ ":" ++ (c.baseURL ++ path)) t1 = (some item.data, c) := by
    unfold Client.getFromCache
    rw [hfound]
    simp [hfresh]
  have hnohit : ∀ v, (some item.data : Option JsValue) = some v → truthy v = false := by
    intro v hv
    cases hv
    exact hfalsy
  cases hok : resp.ok with
  | true =>
    rw [performRequest_dispatch_ok c method path headers body true resp t0 t1 t2 t3
      _ _ hlook hnohit hok]
    exact ⟨rfl, fun _ => rfl, fun hc => Bool.noConfusion hc⟩
  | false =>
    rw [performRequest_dispatch_err c method path headers body true resp t0 t1 t2 t3
      _ _ hlook hnohit hok]
    exact ⟨rfl, fun hc => Bool.noConfusion hc, fun _ => rfl⟩

/-- Witness for C10_falsy_cache_refetch at falsyClient: the fresh
entry holding false is bypassed, the network is called and the fresh
body 5 is returned. -/
theorem C10_falsy_cache_refetch_witness :
    (falsyClient.performRequest "GET" "/y" none .vUndefined true okResp 0 0 0 0).networkCalled = true ∧
    (falsyClient.performRequest "GET" "/y" none .vUndefined true okResp 0 0 0 0).result = .ok okResp.json :=
  ⟨(C10_falsy_cache_refetch falsyClient "GET" "/y" none .vUndefined okResp 0 0 0 0
      { data := .vBool false, timestamp := 0 } _ rfl (by decide) rfl rfl).1,
   (C10_falsy_cache_refetch falsyClient "GET" "/y" none .vUndefined okResp 0 0 0 0
      { data := .vBool false, timestamp := 0 } _ rfl (by decide) rfl rfl).2.1 rfl⟩

end Fetcher
